import Mathlib

/-!
# Clip lifecycle pipeline: ingestion gateway and processing webhook

A shallow embedding of the two services of the repository:

* `src/processor-webhook/processor.js`: the Express route `POST /webhook/new-clip`
  and its helper `updateClipStatus`;
* `src/ingestor-sftp/ingesor.js`: the SFTP `PUT` handler, its writable stream and the
  `finish` handler that registers the clip.

The Supabase registry table is a list of rows, the storage buckets a list of stored
objects.  Everything the code cannot decide by itself (whether a database statement or
an upload returns an error, what `new Date().toISOString()` returns, which id the
registry assigns, what `getPublicUrl` returns) is supplied by an explicit outcome
record, so every function below is a total, executable function.
-/

namespace SaasReplay

/-! ## Data model -/

/-- Values of the `status` column; the code writes the string literals
`'PENDING'` (ingesor.js:76), `'PROCESSING'`, `'READY'`, `'FAILED'` (processor.js:51,87,94). -/
inductive Status where
  | PENDING
  | PROCESSING
  | READY
  | FAILED
  deriving DecidableEq, Repr

/-- One row of the `clips` table, with the column names used by the code. -/
structure ClipRecord where
  id : String
  filename : String
  uploader_id : String
  raw_clip_url : String
  processed_clip_url : Option String
  status : Status
  created_at : String
  updated_at : Option String
  deriving DecidableEq, Repr

/-- The registry table. -/
abbrev Registry := List ClipRecord

/-- An object held by a storage bucket. -/
structure StoredObject where
  bucket : String
  path : String
  body : String
  contentType : String
  deriving DecidableEq, Repr

/-- One call of `supabase.storage.from(bucket).upload(path, body, options)`. -/
structure UploadCall where
  bucket : String
  path : String
  body : String
  contentType : String
  upsert : Bool
  deriving DecidableEq, Repr

/-- The `config` object of `processor-webhook/config.js`.  `webhookSecret` is
`process.env.WEBHOOK_SECRET`, which is `undefined` (`none`) when the variable is missing. -/
structure Config where
  webhookSecret : Option String
  rawClipsBucket : String
  processedClipsBucket : String
  dbTableName : String
  deriving DecidableEq, Repr

/-- The constants of `processor-webhook/config.js` (lines 24-26) with a given secret. -/
def config (secret : Option String) : Config :=
  { webhookSecret := secret
    rawClipsBucket := "raw-clips"
    processedClipsBucket := "processed-clips"
    dbTableName := "clips" }

/-- The request received by the route: the `x-supabase-trigger-secret` header (absent
is `none`) and the JSON body `{ event: { type }, table, record }`. -/
structure Request where
  secret : Option String
  eventType : String
  table : String
  record : ClipRecord
  deriving DecidableEq, Repr

/-- What the outside world answers during one handling of a request: whether each
registry update and the upload return an error, and the three timestamps. -/
structure Outcome where
  claimError : Bool
  claimAt : String
  uploadError : Bool
  readyError : Bool
  readyAt : String
  failedError : Bool
  failedAt : String
  deriving DecidableEq, Repr

/-- The state threaded through the handler: the registry, the buckets, the upload calls
made so far and the registry as it stood after each update statement issued so far. -/
structure Proc where
  registry : Registry
  objects : List StoredObject
  uploads : List UploadCall
  steps : List Registry
  deriving DecidableEq, Repr

/-! ## processor.js -/

/-- The object literal `updatePayload` of `updateClipStatus`; `processed_clip_url` is a key
of the object only when it is `some`. -/
structure UpdatePayload where
  status : Status
  updated_at : String
  processed_clip_url : Option String
  deriving DecidableEq, Repr

/-- JavaScript truthiness of the `processedUrl` argument (`null` and `''` are falsy). -/
def truthy : Option String → Bool
  | none => false
  | some s => s != ""

/-- The effect of `UPDATE ... SET <payload>` on one row. -/
def applyUpdate (p : UpdatePayload) (r : ClipRecord) : ClipRecord :=
  { r with
    status := p.status
    updated_at := some p.updated_at
    processed_clip_url :=
      match p.processed_clip_url with
      | some u => some u
      | none => r.processed_clip_url }

/-- The statement `supabase.from(table).update(payload).eq('id', id)`: every row whose id
is `id` receives the payload, whatever its current status; a statement that returns an
error changes nothing. -/
def dbUpdate (dbError : Bool) (p : UpdatePayload) (id : String) (reg : Registry) : Registry :=
  if dbError then reg else reg.map fun r => if r.id = id then applyUpdate p r else r

/-- The helper `updateClipStatus(id, newStatus, processedUrl)` (processor.js:102-122).
The Boolean of the result tells whether it threw. -/
def updateClipStatus (dbError : Bool) (now : String) (id : String) (newStatus : Status)
    (processedUrl : Option String) (s : Proc) : Bool × Proc :=
  let updatePayload : UpdatePayload :=
    { status := newStatus
      updated_at := now
      processed_clip_url := if truthy processedUrl then processedUrl else none }
  let reg := dbUpdate dbError updatePayload id s.registry
  (dbError, { s with registry := reg, steps := s.steps ++ [reg] })

/-- The call `supabase.storage.from(bucket).upload(path, body, { contentType, upsert })`
as the handler uses it: on success the object at that key is created or replaced.  The
Boolean of the result is `uploadError`. -/
def storageUpload (uploadError : Bool) (c : UploadCall) (s : Proc) : Bool × Proc :=
  let objects :=
    if uploadError then s.objects
    else s.objects.filter (fun o => !(o.bucket == c.bucket && o.path == c.path))
      ++ [{ bucket := c.bucket, path := c.path, body := c.body, contentType := c.contentType }]
  (uploadError, { s with objects := objects, uploads := s.uploads ++ [c] })

/-- The key of the processed artifact (processor.js:62-63). -/
def processedClipPath (record : ClipRecord) : String :=
  record.uploader_id ++ "/" ++ ("proc_" ++ record.filename)

/-- The body of the `try` block (processor.js:49-90).  The Boolean tells whether the block
threw. -/
def tryBlock (cfg : Config) (getPublicUrl : String → String → String) (o : Outcome)
    (clipRecord : ClipRecord) (s : Proc) : Bool × Proc :=
  let clipId := clipRecord.id
  match updateClipStatus o.claimError o.claimAt clipId Status.PROCESSING none s with
  | (true, s1) => (true, s1)
  | (false, s1) =>
    let simulatedBuffer := "Arquivo Processado Simulado para o Clipe ID: " ++ clipId
    let call : UploadCall :=
      { bucket := cfg.processedClipsBucket
        path := processedClipPath clipRecord
        body := simulatedBuffer
        contentType := "text/plain"
        upsert := true }
    match storageUpload o.uploadError call s1 with
    | (true, s2) => (true, s2)
    | (false, s2) =>
      let processedClipUrl := getPublicUrl cfg.processedClipsBucket (processedClipPath clipRecord)
      updateClipStatus o.readyError o.readyAt clipId Status.READY (some processedClipUrl) s2

/-- The result of handling one request: the HTTP status sent and the state left behind. -/
structure Handled where
  response : Nat
  state : Proc
  deriving DecidableEq, Repr

/-- The route `app.post('/webhook/new-clip', ...)` (processor.js:24-96). -/
def webhookNewClip (cfg : Config) (getPublicUrl : String → String → String) (o : Outcome)
    (req : Request) (s : Proc) : Handled :=
  if req.secret ≠ cfg.webhookSecret then
    { response := 401, state := s }
  else if req.eventType ≠ "INSERT" ∨ req.table ≠ cfg.dbTableName then
    { response := 200, state := s }
  else
    let clipRecord := req.record
    match tryBlock cfg getPublicUrl o clipRecord s with
    | (false, s1) => { response := 202, state := s1 }
    | (true, s1) =>
      { response := 202
        state := (updateClipStatus o.failedError o.failedAt clipRecord.id Status.FAILED none s1).2 }

/-- Handling a list of requests one after another, each with its own outcome. -/
def handleAll (cfg : Config) (getPublicUrl : String → String → String) :
    List (Outcome × Request) → Proc → Proc
  | [], s => s
  | (o, req) :: rest, s => handleAll cfg getPublicUrl rest (webhookNewClip cfg getPublicUrl o req s).state

/-! ## ingesor.js -/

/-- The `config` object of `ingestor-sftp/config.js`.  `sftpUsername` is the single
identity the SFTP server authenticates, so it is the uploader of every session. -/
structure IngestorConfig where
  supabaseUrl : String
  sftpUsername : String
  rawClipsBucket : String
  dbTableName : String
  deriving DecidableEq, Repr

/-- The constants of `ingestor-sftp/config.js` (lines 26-27) with the given environment. -/
def ingestorConfig (supabaseUrl sftpUsername : String) : IngestorConfig :=
  { supabaseUrl := supabaseUrl
    sftpUsername := sftpUsername
    rawClipsBucket := "raw-clips"
    dbTableName := "clips" }

/-- Node's `path.basename(filepath)` for POSIX paths, as called at ingesor.js:36: trailing
slashes are skipped, then the characters after the last remaining slash are kept. -/
def basename (filepath : String) : String :=
  String.mk (((filepath.data.reverse.dropWhile (fun c => c == '/')).takeWhile
    (fun c => c != '/')).reverse)

/-- How the `insert(...).select().single()` call of the finish handler ends: a row was
inserted, `error` was returned, or the call threw. -/
inductive InsertResult where
  | inserted
  | error
  | thrown
  deriving DecidableEq, Repr

/-- What the outside world answers to the finish handler: the result of the insert, the
id the registry assigns and the value of `new Date().toISOString()`. -/
structure InsertOutcome where
  result : InsertResult
  newId : String
  now : String
  deriving DecidableEq, Repr

/-- One file transfer as the `PUT` handler sees it: the destination path, the chunks
written to the returned stream, and whether the stream was ended (the client closed the
file), which is what makes the stream emit `finish`. -/
structure Transfer where
  filepath : String
  chunks : List String
  ended : Bool
  deriving DecidableEq, Repr

/-- The `write(chunk, encoding, callback)` method of the stream (ingesor.js:44-62): it logs
and calls `callback()`; the chunk is not kept and no storage call is made. -/
def writableWrite (_chunk : String) (s : Proc) : Proc := s

/-- The URL built at ingesor.js:68. -/
def simulatedRawClipUrl (cfg : IngestorConfig) (remoteStoragePath : String) : String :=
  cfg.supabaseUrl ++ "/storage/v1/object/public/" ++ cfg.rawClipsBucket ++ "/" ++ remoteStoragePath

/-- The row passed to `insert` (ingesor.js:73-79) as the registry stores it: the id is
assigned by the registry and the columns the code does not give are null. -/
def insertedRow (cfg : IngestorConfig) (o : InsertOutcome) (filename remoteStoragePath : String) :
    ClipRecord :=
  { id := o.newId
    filename := filename
    uploader_id := cfg.sftpUsername
    raw_clip_url := simulatedRawClipUrl cfg remoteStoragePath
    processed_clip_url := none
    status := Status.PENDING
    created_at := o.now
    updated_at := none }

/-- The `finish` handler of the stream (ingesor.js:65-91): an insert that fails is only
logged. -/
def finishHandler (cfg : IngestorConfig) (o : InsertOutcome) (filename remoteStoragePath : String)
    (s : Proc) : Proc :=
  match o.result with
  | InsertResult.inserted =>
    let reg := s.registry ++ [insertedRow cfg o filename remoteStoragePath]
    { s with registry := reg, steps := s.steps ++ [reg] }
  | InsertResult.error => s
  | InsertResult.thrown => s

/-- The result of one transfer: whether the transfer client was told that the upload
succeeded, and the state left behind. -/
structure PutResult where
  clientOk : Bool
  state : Proc
  deriving DecidableEq, Repr

/-- The handler `sftp.on('PUT', ...)` (ingesor.js:34-94) run over one transfer.  Every write
is acknowledged because `write` never reports an error, so the client sees the upload
succeed as soon as it has ended the stream; the insert runs afterwards and its result
never reaches the client. -/
def onPut (cfg : IngestorConfig) (o : InsertOutcome) (t : Transfer) (s : Proc) : PutResult :=
  let filename := basename t.filepath
  let sftpUsername := cfg.sftpUsername
  let remoteStoragePath := sftpUsername ++ "/" ++ filename
  let s1 := t.chunks.foldl (fun acc chunk => writableWrite chunk acc) s
  if t.ended then
    { clientOk := true, state := finishHandler cfg o filename remoteStoragePath s1 }
  else
    { clientOk := false, state := s1 }

/-! ## Properties stated by the specification -/

/-- The transitions of the state machine `PENDING → PROCESSING → {READY, FAILED}`. -/
def allowedTransition : Status → Status → Bool
  | Status.PENDING, Status.PROCESSING => true
  | Status.PROCESSING, Status.READY => true
  | Status.PROCESSING, Status.FAILED => true
  | _, _ => false

/-- The transitions of the state machine together with `PENDING → FAILED`. -/
def allowedOrPendingFailed : Status → Status → Bool
  | Status.PENDING, Status.FAILED => true
  | a, b => allowedTransition a b

/-- Between two consecutive registry states every row is still the row of the same id
and has kept its status or changed it by a transition that `allow` accepts. -/
def stepFollows (allow : Status → Status → Bool) (a b : Registry) : Bool :=
  a.length == b.length &&
    (a.zip b).all fun p => p.1.id == p.2.id && (p.1.status == p.2.status || allow p.1.status p.2.status)

/-- Every change along a sequence of registry states is accepted by `allow`. -/
def changesFollow (allow : Status → Status → Bool) : Registry → List Registry → Bool
  | _, [] => true
  | a, b :: rest => stepFollows allow a b && changesFollow allow b rest

/-- Between two consecutive registry states every row whose id is not `id` is the same
row, with every column as it was. -/
def othersKept (id : String) (a b : Registry) : Bool :=
  a.length == b.length &&
    (a.zip b).all fun p => decide (p.1.id = id) || decide (p.1 = p.2)

/-- Along a sequence of registry states the rows whose id is not `id` never change. -/
def othersKeptAlong (id : String) : Registry → List Registry → Bool
  | _, [] => true
  | a, b :: rest => othersKept id a b && othersKeptAlong id b rest

/-- The invariant of the data model: `processedClipUrl` is set exactly when the status
is `READY`. -/
def urlIffReady (r : ClipRecord) : Bool :=
  r.processed_clip_url.isSome == (r.status == Status.READY)

/-- The object store holds the bytes of the transfer in the raw-clips bucket under the
key `uploader/filename`. -/
def rawArtifactStored (cfg : IngestorConfig) (t : Transfer) (s : Proc) : Bool :=
  s.objects.any fun ob =>
    ob.bucket == cfg.rawClipsBucket &&
    ob.path == cfg.sftpUsername ++ "/" ++ basename t.filepath &&
    ob.body == String.join t.chunks

/-! ## Example data -/

/-- The row that the gateway registers for `clip001.mp4` uploaded by `arena01`. -/
def exampleRecord : ClipRecord :=
  { id := "c1"
    filename := "clip001.mp4"
    uploader_id := "arena01"
    raw_clip_url := "https://db.example/storage/v1/object/public/raw-clips/arena01/clip001.mp4"
    processed_clip_url := none
    status := Status.PENDING
    created_at := "t0"
    updated_at := none }

/-- A public-URL function of the shape used by the storage service. -/
def examplePublicUrl (bucket path : String) : String :=
  "https://db.example/storage/v1/object/public/" ++ bucket ++ "/" ++ path

/-- The insertion notification for `exampleRecord`, with the secret `s3cret`. -/
def exampleRequest : Request :=
  { secret := some "s3cret", eventType := "INSERT", table := "clips", record := exampleRecord }

/-- A state whose registry holds the given rows and nothing else has happened. -/
def stateOf (reg : Registry) : Proc :=
  { registry := reg, objects := [], uploads := [], steps := [] }

/-- An outcome in which the listed calls fail and the three updates are stamped
`t1`, `t2`, `t3`. -/
def outcomeWith (claimError uploadError readyError failedError : Bool) : Outcome :=
  { claimError := claimError
    claimAt := "t1"
    uploadError := uploadError
    readyError := readyError
    readyAt := "t2"
    failedError := failedError
    failedAt := "t3" }

/-- An outcome for a later handling: nothing fails except the upload when `uploadError` is
set, and the three updates are stamped `t4`, `t5`, `t6`. -/
def laterOutcome (uploadError : Bool) : Outcome :=
  { claimError := false
    claimAt := "t4"
    uploadError := uploadError
    readyError := false
    readyAt := "t5"
    failedError := false
    failedAt := "t6" }

/-- The record `exampleRecord` after a first successful processing. -/
def exampleReady : ClipRecord :=
  { exampleRecord with
    status := Status.READY
    processed_clip_url :=
      some "https://db.example/storage/v1/object/public/processed-clips/arena01/proc_clip001.mp4"
    updated_at := some "t2" }

/-- A row of another clip, already READY. -/
def exampleOther : ClipRecord :=
  { id := "c2"
    filename := "clip002.mp4"
    uploader_id := "arena01"
    raw_clip_url := "https://db.example/storage/v1/object/public/raw-clips/arena01/clip002.mp4"
    processed_clip_url :=
      some "https://db.example/storage/v1/object/public/processed-clips/arena01/proc_clip002.mp4"
    status := Status.READY
    created_at := "t0"
    updated_at := some "t0" }

/-- The upload of `/uploads/clip001.mp4` with three bytes, completed by the client. -/
def exampleTransfer : Transfer :=
  { filepath := "/uploads/clip001.mp4", chunks := ["abc"], ended := true }

/-- The gateway configuration of the examples. -/
def exampleIngestor : IngestorConfig := ingestorConfig "https://db.example" "arena01"

/-- The insert of the examples ending as `result`. -/
def insertWith (result : InsertResult) : InsertOutcome :=
  { result := result, newId := "c1", now := "t0" }

/-- The statuses of the rows of each registry state of a list. -/
def statusTrace (steps : List Registry) : List (List Status) :=
  steps.map fun reg => reg.map fun r => r.status

/-! ## Lemmas on the handler -/

theorem mem_map_update {reg : Registry} {r : ClipRecord} (h : r ∈ reg) (id : String)
    (f : ClipRecord → ClipRecord) (hid : r.id = id) :
    f r ∈ reg.map fun x => if x.id = id then f x else x := by
  refine List.mem_map.mpr ⟨r, h, ?_⟩
  simp [hid]

/-! ## Theorems -/

theorem state_of_rejected (cfg : Config) (getPublicUrl : String → String → String) (o : Outcome)
    (req : Request) (s : Proc)
    (h : req.secret ≠ cfg.webhookSecret ∨ req.eventType ≠ "INSERT" ∨ req.table ≠ cfg.dbTableName) :
    (webhookNewClip cfg getPublicUrl o req s).state = s := by
  unfold webhookNewClip
  by_cases h1 : req.secret = cfg.webhookSecret
  · rcases h with h | h
    · exact absurd h1 h
    · simp [h1, h]
  · simp [h1]

/-- C5: a request whose header secret differs from the configured secret, or whose event
type is not INSERT, or whose table is not the configured table, leaves the whole state as
it was: the registry and the buckets are unchanged, no update statement is issued and no
upload call is made. -/
theorem rejected_or_ignored_mutates_nothing (cfg : Config)
    (getPublicUrl : String → String → String) (o : Outcome) (req : Request) (s : Proc)
    (h : req.secret ≠ cfg.webhookSecret ∨ req.eventType ≠ "INSERT" ∨ req.table ≠ cfg.dbTableName) :
    (webhookNewClip cfg getPublicUrl o req s).state = s := by
  rcases h with hsecret | hevent | htable
  · simp [webhookNewClip, hsecret]
  · by_cases h1 : req.secret = cfg.webhookSecret
    · simp [webhookNewClip, h1, hevent]
    · simp [webhookNewClip, h1]
  · by_cases h1 : req.secret = cfg.webhookSecret
    · simp [webhookNewClip, h1, htable]
    · simp [webhookNewClip, h1]

/-- Witness of C5: a request with the secret `wrong` against the configured secret `s3cret`. -/
theorem rejected_or_ignored_mutates_nothing_witness :
    (some "wrong" : Option String) ≠ (config (some "s3cret")).webhookSecret ∧
    (webhookNewClip (config (some "s3cret")) examplePublicUrl (outcomeWith false false false false)
      { exampleRequest with secret := some "wrong" } (stateOf [exampleRecord])).state =
      stateOf [exampleRecord] :=
  ⟨by decide,
   rejected_or_ignored_mutates_nothing (config (some "s3cret")) examplePublicUrl
    (outcomeWith false false false false) { exampleRequest with secret := some "wrong" }
    (stateOf [exampleRecord]) (Or.inl (by decide))⟩

/-- The response of the route as the code computes it: 401 exactly when the header differs
from `config.webhookSecret`, both read as optional strings, 200 exactly when they agree and
the event type is not INSERT or the table is not the configured one, and 202 exactly when
the three agree, whatever the outcome of the claim, the upload and the later updates.  A
missing header is answered 401 whenever a secret is configured. -/
theorem response_code (cfg : Config) (getPublicUrl : String → String → String) (o : Outcome)
    (req : Request) (s : Proc) :
    ((webhookNewClip cfg getPublicUrl o req s).response = 401 ↔ req.secret ≠ cfg.webhookSecret) ∧
    ((webhookNewClip cfg getPublicUrl o req s).response = 200 ↔
      req.secret = cfg.webhookSecret ∧ (req.eventType ≠ "INSERT" ∨ req.table ≠ cfg.dbTableName)) ∧
    ((webhookNewClip cfg getPublicUrl o req s).response = 202 ↔
      req.secret = cfg.webhookSecret ∧ req.eventType = "INSERT" ∧ req.table = cfg.dbTableName) ∧
    (∀ configured : String,
      (webhookNewClip { cfg with webhookSecret := some configured } getPublicUrl o
        { req with secret := none } s).response = 401) := by
  refine ⟨?_, ?_, ?_, ?_⟩
  · unfold webhookNewClip
    by_cases h1 : req.secret = cfg.webhookSecret
    · by_cases h2 : req.eventType ≠ "INSERT" ∨ req.table ≠ cfg.dbTableName
      · simp [h1, h2]
      · simp only [h1, h2]
        cases tryBlock cfg getPublicUrl o req.record s with
        | mk b s1 => cases b <;> simp
    · simp [h1]
  · unfold webhookNewClip
    by_cases h1 : req.secret = cfg.webhookSecret
    · by_cases h2 : req.eventType ≠ "INSERT" ∨ req.table ≠ cfg.dbTableName
      · simp [h1, h2]
      · simp only [h1, h2]
        cases tryBlock cfg getPublicUrl o req.record s with
        | mk b s1 => cases b <;> simp
    · simp [h1]
  · unfold webhookNewClip
    by_cases h1 : req.secret = cfg.webhookSecret
    · by_cases h2 : req.eventType ≠ "INSERT" ∨ req.table ≠ cfg.dbTableName
      · have h3 : ¬ (req.eventType = "INSERT" ∧ req.table = cfg.dbTableName) := by
          intro h; rcases h2 with h2 | h2
          · exact h2 h.1
          · exact h2 h.2
        simp [h1, h2, h3]
      · have h3 : req.eventType = "INSERT" ∧ req.table = cfg.dbTableName := by
          constructor
          · by_contra h; exact h2 (Or.inl h)
          · by_contra h; exact h2 (Or.inr h)
        simp only [h1, h2]
        cases tryBlock cfg getPublicUrl o req.record s with
        | mk b s1 => cases b <;> simp [h3]
    · simp [h1]
  · intro configured
    simp [webhookNewClip]

/-- C6, evaluated on the code: `WEBHOOK_SECRET` is unset and an insertion notification for
the clips table arrives without the secret header; the comparison at processor.js:29 is
between two undefined values, so the request is answered 202 instead of 401 and the clip
is processed (one upload, the row ends READY). -/
theorem missing_header_accepted_when_secret_unset :
    (webhookNewClip (config none) examplePublicUrl (outcomeWith false false false false)
      { exampleRequest with secret := none } (stateOf [exampleRecord])).response = 202 ∧
    (webhookNewClip (config none) examplePublicUrl (outcomeWith false false false false)
      { exampleRequest with secret := none } (stateOf [exampleRecord])).state.uploads.length = 1 ∧
    (webhookNewClip (config none) examplePublicUrl (outcomeWith false false false false)
      { exampleRequest with secret := none } (stateOf [exampleRecord])).state.registry =
      [exampleReady] := by
  decide

/-- C7: for a PENDING record with filename `f` and uploader `u`, when a valid insertion
notification carrying that record is handled and the claim update, the upload and the
READY update all succeed, one upload is made, with `upsert` set, to the processed bucket
under the key `u/proc_f`, the bucket then holds that object, and every row of that id
(the record among them) ends with status READY and `processed_clip_url` equal to the
public URL of that key. -/
theorem success_path (cfg : Config) (getPublicUrl : String → String → String) (o : Outcome)
    (req : Request) (s : Proc) (r : ClipRecord)
    (hmem : r ∈ s.registry) (_hpending : r.status = Status.PENDING)
    (hsecret : req.secret = cfg.webhookSecret) (htype : req.eventType = "INSERT")
    (htable : req.table = cfg.dbTableName)
    (hid : req.record.id = r.id) (hfile : req.record.filename = r.filename)
    (huploader : req.record.uploader_id = r.uploader_id)
    (hclaim : o.claimError = false) (hupload : o.uploadError = false)
    (hready : o.readyError = false)
    (hurl : getPublicUrl cfg.processedClipsBucket (r.uploader_id ++ "/proc_" ++ r.filename) ≠ "") :
    (webhookNewClip cfg getPublicUrl o req s).state.uploads =
      s.uploads ++ [{ bucket := cfg.processedClipsBucket
                      path := r.uploader_id ++ "/proc_" ++ r.filename
                      body := "Arquivo Processado Simulado para o Clipe ID: " ++ r.id
                      contentType := "text/plain"
                      upsert := true }] ∧
    ({ bucket := cfg.processedClipsBucket
       path := r.uploader_id ++ "/proc_" ++ r.filename
       body := "Arquivo Processado Simulado para o Clipe ID: " ++ r.id
       contentType := "text/plain" } : StoredObject) ∈
      (webhookNewClip cfg getPublicUrl o req s).state.objects ∧
    (webhookNewClip cfg getPublicUrl o req s).state.registry =
      s.registry.map (fun x => if x.id = r.id then
        { x with
          status := Status.READY
          processed_clip_url :=
            some (getPublicUrl cfg.processedClipsBucket (r.uploader_id ++ "/proc_" ++ r.filename))
          updated_at := some o.readyAt }
        else x) ∧
    { r with
      status := Status.READY
      processed_clip_url :=
        some (getPublicUrl cfg.processedClipsBucket (r.uploader_id ++ "/proc_" ++ r.filename))
      updated_at := some o.readyAt } ∈ (webhookNewClip cfg getPublicUrl o req s).state.registry := by
  have hpath : processedClipPath req.record = r.uploader_id ++ "/proc_" ++ r.filename := by
    unfold processedClipPath
    rw [hfile, huploader, ← String.append_assoc, String.append_assoc r.uploader_id "/" "proc_"]
    rfl
  have hreg : (webhookNewClip cfg getPublicUrl o req s).state.registry =
      s.registry.map (fun x => if x.id = r.id then
        { x with
          status := Status.READY
          processed_clip_url :=
            some (getPublicUrl cfg.processedClipsBucket (r.uploader_id ++ "/proc_" ++ r.filename))
          updated_at := some o.readyAt }
        else x) := by
    simp only [webhookNewClip, hsecret, htype, htable, tryBlock, updateClipStatus, storageUpload,
      hclaim, hupload, hready, dbUpdate, hpath, hid, truthy]
    simp only [ne_eq, not_true_eq_false, or_self, ite_false, hurl, bne_iff_ne, not_false_eq_true,
      ite_true, Bool.false_eq_true, List.map_map]
    apply List.map_congr_left
    intro x _
    by_cases hx : x.id = r.id <;> simp [Function.comp, applyUpdate, hx]
  refine ⟨?_, ?_, hreg, ?_⟩
  · simp [webhookNewClip, hsecret, htype, htable, tryBlock, updateClipStatus, storageUpload,
      hclaim, hupload, hready, hpath, hid]
  · simp [webhookNewClip, hsecret, htype, htable, tryBlock, updateClipStatus, storageUpload,
      hclaim, hupload, hready, hpath, hid]
  · rw [hreg]
    exact mem_map_update hmem r.id
      (fun x => { x with
        status := Status.READY
        processed_clip_url :=
          some (getPublicUrl cfg.processedClipsBucket (r.uploader_id ++ "/proc_" ++ r.filename))
        updated_at := some o.readyAt }) rfl

/-- Witness of C7: `clip001.mp4` of `arena01` ends READY with a URL ending in
`arena01/proc_clip001.mp4`. -/
theorem success_path_witness :
    ({ exampleRecord with
       status := Status.READY
       processed_clip_url :=
         some "https://db.example/storage/v1/object/public/processed-clips/arena01/proc_clip001.mp4"
       updated_at := some "t2" } : ClipRecord) ∈
      (webhookNewClip (config (some "s3cret")) examplePublicUrl (outcomeWith false false false false)
        exampleRequest (stateOf [exampleRecord])).state.registry :=
  (success_path (config (some "s3cret")) examplePublicUrl (outcomeWith false false false false)
    exampleRequest (stateOf [exampleRecord]) exampleRecord (by decide) (by decide) (by decide)
    (by decide) (by decide) (by decide) (by decide) (by decide) (by decide) (by decide)
    (by decide) (by decide)).2.2.2

/-- C8: for a PENDING record without `processed_clip_url` and a valid insertion notification
for it whose claim update succeeded, if the upload fails or the READY update fails, then:
when the FAILED update succeeds every row of that id gets status FAILED and keeps its
`processed_clip_url`, so the record ends FAILED with `processed_clip_url` absent; when the
FAILED update fails too the record is left in PROCESSING. -/
theorem failure_path (cfg : Config) (getPublicUrl : String → String → String) (o : Outcome)
    (req : Request) (s : Proc) (r : ClipRecord)
    (hmem : r ∈ s.registry) (_hpending : r.status = Status.PENDING)
    (hnourl : r.processed_clip_url = none)
    (hsecret : req.secret = cfg.webhookSecret) (htype : req.eventType = "INSERT")
    (htable : req.table = cfg.dbTableName) (hid : req.record.id = r.id)
    (hclaim : o.claimError = false)
    (hfail : o.uploadError = true ∨ o.readyError = true) :
    (o.failedError = false →
      (webhookNewClip cfg getPublicUrl o req s).state.registry =
        s.registry.map (fun x => if x.id = r.id then
          { x with status := Status.FAILED, updated_at := some o.failedAt } else x) ∧
      { r with status := Status.FAILED, processed_clip_url := none, updated_at := some o.failedAt } ∈
        (webhookNewClip cfg getPublicUrl o req s).state.registry) ∧
    (o.failedError = true →
      (webhookNewClip cfg getPublicUrl o req s).state.registry =
        s.registry.map (fun x => if x.id = r.id then
          { x with status := Status.PROCESSING, updated_at := some o.claimAt } else x) ∧
      { r with status := Status.PROCESSING, processed_clip_url := none, updated_at := some o.claimAt } ∈
        (webhookNewClip cfg getPublicUrl o req s).state.registry) := by
  have hF : o.failedError = false →
      (webhookNewClip cfg getPublicUrl o req s).state.registry =
        s.registry.map (fun x => if x.id = r.id then
          { x with status := Status.FAILED, updated_at := some o.failedAt } else x) := by
    intro hfe
    have key : ∀ x : ClipRecord, x ∈ s.registry →
        ((fun y : ClipRecord => if y.id = r.id then
            applyUpdate { status := Status.FAILED, updated_at := o.failedAt,
                          processed_clip_url := none } y else y) ∘
          (fun y : ClipRecord => if y.id = r.id then
            applyUpdate { status := Status.PROCESSING, updated_at := o.claimAt,
                          processed_clip_url := none } y else y)) x =
        (if x.id = r.id then
          { x with status := Status.FAILED, updated_at := some o.failedAt } else x) := by
      intro x _
      by_cases hx : x.id = r.id <;> simp [Function.comp, applyUpdate, hx]
    rcases hfail with hu | hr
    · simp only [webhookNewClip, hsecret, htype, htable, tryBlock, updateClipStatus, storageUpload,
        hclaim, hu, hfe, dbUpdate, hid, truthy]
      simp only [ne_eq, not_true_eq_false, or_self, ite_false, Bool.false_eq_true, List.map_map]
      exact List.map_congr_left key
    · cases hu : o.uploadError
      · simp only [webhookNewClip, hsecret, htype, htable, tryBlock, updateClipStatus,
          storageUpload, hclaim, hu, hr, hfe, dbUpdate, hid, truthy]
        simp only [ne_eq, not_true_eq_false, or_self, ite_false, Bool.false_eq_true, ite_true,
          List.map_map]
        exact List.map_congr_left key
      · simp only [webhookNewClip, hsecret, htype, htable, tryBlock, updateClipStatus,
          storageUpload, hclaim, hu, hfe, dbUpdate, hid, truthy]
        simp only [ne_eq, not_true_eq_false, or_self, ite_false, Bool.false_eq_true, List.map_map]
        exact List.map_congr_left key
  have hP : o.failedError = true →
      (webhookNewClip cfg getPublicUrl o req s).state.registry =
        s.registry.map (fun x => if x.id = r.id then
          { x with status := Status.PROCESSING, updated_at := some o.claimAt } else x) := by
    intro hfe
    have key : ∀ x : ClipRecord, x ∈ s.registry →
        (if x.id = r.id then
            applyUpdate { status := Status.PROCESSING, updated_at := o.claimAt,
                          processed_clip_url := none } x else x) =
        (if x.id = r.id then
          { x with status := Status.PROCESSING, updated_at := some o.claimAt } else x) := by
      intro x _
      by_cases hx : x.id = r.id <;> simp [applyUpdate, hx]
    rcases hfail with hu | hr
    · simp only [webhookNewClip, hsecret, htype, htable, tryBlock, updateClipStatus, storageUpload,
        hclaim, hu, hfe, dbUpdate, hid, truthy]
      simp only [ne_eq, not_true_eq_false, or_self, ite_false, Bool.false_eq_true, ite_true]
      exact List.map_congr_left key
    · cases hu : o.uploadError
      · simp only [webhookNewClip, hsecret, htype, htable, tryBlock, updateClipStatus,
          storageUpload, hclaim, hu, hr, hfe, dbUpdate, hid, truthy]
        simp only [ne_eq, not_true_eq_false, or_self, ite_false, Bool.false_eq_true, ite_true]
        exact List.map_congr_left key
      · simp only [webhookNewClip, hsecret, htype, htable, tryBlock, updateClipStatus,
          storageUpload, hclaim, hu, hfe, dbUpdate, hid, truthy]
        simp only [ne_eq, not_true_eq_false, or_self, ite_false, Bool.false_eq_true, ite_true]
        exact List.map_congr_left key
  refine ⟨fun hfe => ⟨hF hfe, ?_⟩, fun hfe => ⟨hP hfe, ?_⟩⟩
  · rw [hF hfe]
    have := mem_map_update hmem r.id
      (fun x => { x with status := Status.FAILED, updated_at := some o.failedAt }) rfl
    simpa [← hnourl] using this
  · rw [hP hfe]
    have := mem_map_update hmem r.id
      (fun x => { x with status := Status.PROCESSING, updated_at := some o.claimAt }) rfl
    simpa [← hnourl] using this

/-- Witness of C8: the upload fails for `clip001.mp4` and the record ends FAILED. -/
theorem failure_path_witness :
    ({ exampleRecord with status := Status.FAILED, updated_at := some "t3" } : ClipRecord) ∈
      (webhookNewClip (config (some "s3cret")) examplePublicUrl (outcomeWith false true false false)
        exampleRequest (stateOf [exampleRecord])).state.registry :=
  ((failure_path (config (some "s3cret")) examplePublicUrl (outcomeWith false true false false)
    exampleRequest (stateOf [exampleRecord]) exampleRecord (by decide) (by decide) (by decide)
    (by decide) (by decide) (by decide) (by decide) (by decide) (Or.inl (by decide))).1
    (by decide)).2

/-- C1, evaluated on the code: a record that is already READY is notified again with the
correct secret; the handler does not stop: it makes an upload call and rewrites the row
(through PROCESSING back to READY, with a new `updated_at`). -/
theorem claim_guard_absent :
    (webhookNewClip (config (some "s3cret")) examplePublicUrl (laterOutcome false)
      exampleRequest (stateOf [exampleReady])).state.uploads.length = 1 ∧
    statusTrace (webhookNewClip (config (some "s3cret")) examplePublicUrl
      (laterOutcome false) exampleRequest (stateOf [exampleReady])).state.steps =
      [[Status.PROCESSING], [Status.READY]] ∧
    (webhookNewClip (config (some "s3cret")) examplePublicUrl (laterOutcome false)
      exampleRequest (stateOf [exampleReady])).state.registry =
      [{ exampleReady with updated_at := some "t5" }] := by
  decide

/-- C3, evaluated on the code: the gateway registers `clip001.mp4`, its notification is
handled successfully, and the same notification is handled again with a failing upload;
the record ends FAILED with `processed_clip_url` still set, so the invariant is broken in
a reachable state. -/
theorem url_iff_ready_broken_by_redelivery :
    (onPut exampleIngestor (insertWith InsertResult.inserted) exampleTransfer (stateOf [])).state.registry =
      [exampleRecord] ∧
    (handleAll (config (some "s3cret")) examplePublicUrl
      [(outcomeWith false false false false, exampleRequest), (laterOutcome true, exampleRequest)]
      (onPut exampleIngestor (insertWith InsertResult.inserted) exampleTransfer (stateOf [])).state).registry =
      [{ exampleReady with status := Status.FAILED, updated_at := some "t6" }] ∧
    (handleAll (config (some "s3cret")) examplePublicUrl
      [(outcomeWith false false false false, exampleRequest), (laterOutcome true, exampleRequest)]
      (onPut exampleIngestor (insertWith InsertResult.inserted) exampleTransfer (stateOf [])).state).registry.all
      urlIffReady = false := by
  decide

/-- C4, evaluated on the code: the same valid notification for a PENDING record is handled
twice; both handlings make the upload call, and the second one takes the row from READY
back to PROCESSING and to READY again, so the registry after it differs from the registry
after the first. -/
theorem duplicate_delivery_processed_twice :
    (handleAll (config (some "s3cret")) examplePublicUrl
      [(outcomeWith false false false false, exampleRequest), (laterOutcome false, exampleRequest)]
      (stateOf [exampleRecord])).uploads.length = 2 ∧
    statusTrace (handleAll (config (some "s3cret")) examplePublicUrl
      [(outcomeWith false false false false, exampleRequest), (laterOutcome false, exampleRequest)]
      (stateOf [exampleRecord])).steps =
      [[Status.PROCESSING], [Status.READY], [Status.PROCESSING], [Status.READY]] ∧
    (handleAll (config (some "s3cret")) examplePublicUrl
      [(outcomeWith false false false false, exampleRequest), (laterOutcome false, exampleRequest)]
      (stateOf [exampleRecord])).registry ≠
    (handleAll (config (some "s3cret")) examplePublicUrl
      [(outcomeWith false false false false, exampleRequest)]
      (stateOf [exampleRecord])).registry := by
  decide

/-! ### The state machine -/

theorem stepFollows_map (allow : Status → Status → Bool) (reg : Registry)
    (f : ClipRecord → ClipRecord)
    (h : ∀ r ∈ reg, (f r).id = r.id ∧
      (r.status = (f r).status ∨ allow r.status (f r).status = true)) :
    stepFollows allow reg (reg.map f) = true := by
  unfold stepFollows
  simp only [List.length_map, beq_self_eq_true, Bool.true_and]
  induction reg with
  | nil => rfl
  | cons a rest ih =>
    have ha := h a (List.mem_cons_self a rest)
    have hrest := ih (fun r hr => h r (List.mem_cons_of_mem a hr))
    simp only [List.map_cons, List.zip_cons_cons, List.all_cons, Bool.and_eq_true, hrest,
      and_true, beq_iff_eq, Bool.or_eq_true]
    exact ⟨ha.1.symm, ha.2⟩

theorem stepFollows_dbUpdate (allow : Status → Status → Bool) (dbError : Bool) (p : UpdatePayload)
    (id : String) (reg : Registry)
    (h : ∀ r ∈ reg, r.id = id → r.status = p.status ∨ allow r.status p.status = true) :
    stepFollows allow reg (dbUpdate dbError p id reg) = true := by
  cases dbError
  · simp only [dbUpdate, Bool.false_eq_true, ite_false]
    apply stepFollows_map
    intro r hr
    by_cases hid : r.id = id
    · simpa [hid, applyUpdate] using h r hr hid
    · simp [hid]
  · simp only [dbUpdate, ite_true]
    have := stepFollows_map allow reg (fun r => r) (fun r _ => ⟨rfl, Or.inl rfl⟩)
    simpa using this

theorem othersKept_map (id : String) (reg : Registry) (f : ClipRecord → ClipRecord)
    (h : ∀ r ∈ reg, r.id ≠ id → f r = r) :
    othersKept id reg (reg.map f) = true := by
  unfold othersKept
  simp only [List.length_map, beq_self_eq_true, Bool.true_and]
  induction reg with
  | nil => rfl
  | cons a rest ih =>
    have ha := h a (List.mem_cons_self a rest)
    have hrest := ih (fun r hr => h r (List.mem_cons_of_mem a hr))
    simp only [List.map_cons, List.zip_cons_cons, List.all_cons, Bool.and_eq_true, hrest,
      and_true, Bool.or_eq_true, decide_eq_true_eq]
    by_cases hid : a.id = id
    · exact Or.inl hid
    · exact Or.inr (ha hid).symm

theorem othersKept_dbUpdate (dbError : Bool) (p : UpdatePayload) (id : String) (reg : Registry) :
    othersKept id reg (dbUpdate dbError p id reg) = true := by
  cases dbError
  · simp only [dbUpdate, Bool.false_eq_true, ite_false]
    apply othersKept_map
    intro r _ hid
    simp [hid]
  · simp only [dbUpdate, ite_true]
    have := othersKept_map id reg (fun r => r) (fun r _ _ => rfl)
    simpa using this

theorem status_after_dbUpdate (p : UpdatePayload) (id : String) (reg : Registry) :
    ∀ r ∈ dbUpdate false p id reg, r.id = id → r.status = p.status := by
  intro r hr hid
  simp only [dbUpdate, Bool.false_eq_true, ite_false, List.mem_map] at hr
  obtain ⟨x, _, hx⟩ := hr
  by_cases hxid : x.id = id
  · simp only [hxid, ite_true] at hx
    rw [← hx]; rfl
  · simp only [hxid, ite_false] at hx
    rw [hx] at hxid
    exact absurd hid hxid

/-- C2 as amended: when every row with the notified id is PENDING as the handling starts,
each change the handler makes to a row keeps its id and moves its status along
PENDING → PROCESSING, PROCESSING → READY, PROCESSING → FAILED or PENDING → FAILED, and
when the claim update returns no error only along the first three; the rows whose id is
not the notified id are never changed, so they keep their status. -/
theorem transitions_from_pending (cfg : Config) (getPublicUrl : String → String → String)
    (o : Outcome) (req : Request) (s : Proc)
    (hpending : ∀ r ∈ s.registry, r.id = req.record.id → r.status = Status.PENDING) :
    changesFollow allowedOrPendingFailed s.registry
      ((webhookNewClip cfg getPublicUrl o req s).state.steps.drop s.steps.length) = true ∧
    (o.claimError = false →
      changesFollow allowedTransition s.registry
        ((webhookNewClip cfg getPublicUrl o req s).state.steps.drop s.steps.length) = true) ∧
    othersKeptAlong req.record.id s.registry
      ((webhookNewClip cfg getPublicUrl o req s).state.steps.drop s.steps.length) = true := by
  have weaken : ∀ a b, allowedTransition a b = true → allowedOrPendingFailed a b = true := by
    intro a b h
    cases a <;> cases b <;> simp_all [allowedTransition, allowedOrPendingFailed]
  by_cases hacc : req.secret = cfg.webhookSecret ∧ req.eventType = "INSERT" ∧
      req.table = cfg.dbTableName
  · obtain ⟨h1, h2, h3⟩ := hacc
    -- the registry states the handler can go through
    have hproc := status_after_dbUpdate
      { status := Status.PROCESSING, updated_at := o.claimAt, processed_clip_url := none }
      req.record.id s.registry
    have step1 : ∀ (allow : Status → Status → Bool),
        allow Status.PENDING Status.PROCESSING = true → ∀ e p,
        p.status = Status.PROCESSING →
        stepFollows allow s.registry (dbUpdate e p req.record.id s.registry) = true := by
      intro allow ha e p hp
      apply stepFollows_dbUpdate
      intro r hr hid
      rw [hpending r hr hid, hp]
      exact Or.inr ha
    have step2 : ∀ (allow : Status → Status → Bool) (st : Status),
        allow Status.PROCESSING st = true → ∀ e p q,
        q.status = Status.PROCESSING → p.status = st →
        stepFollows allow (dbUpdate false q req.record.id s.registry)
          (dbUpdate e p req.record.id (dbUpdate false q req.record.id s.registry)) = true := by
      intro allow st ha e p q hq hp
      apply stepFollows_dbUpdate
      intro r hr hid
      rw [status_after_dbUpdate q req.record.id s.registry r hr hid, hq, hp]
      exact Or.inr ha
    have step0 : ∀ (allow : Status → Status → Bool) (st : Status),
        allow Status.PENDING st = true → ∀ e p,
        p.status = st →
        stepFollows allow s.registry (dbUpdate e p req.record.id s.registry) = true := by
      intro allow st ha e p hp
      apply stepFollows_dbUpdate
      intro r hr hid
      rw [hpending r hr hid, hp]
      exact Or.inr ha
    have stepSame : ∀ (allow : Status → Status → Bool) (reg : Registry),
        stepFollows allow reg reg = true := by
      intro allow reg
      have := stepFollows_map allow reg (fun r => r) (fun r _ => ⟨rfl, Or.inl rfl⟩)
      simpa using this
    obtain ⟨ce, ca, ue, re, ra, fe, fa⟩ := o
    refine ⟨?_, ?_, ?_⟩
    · cases ce <;> cases ue <;> cases re <;>
        simp only [webhookNewClip, h1, h2, h3, tryBlock, updateClipStatus, storageUpload,
          ne_eq, not_true_eq_false, or_self, ite_false, List.append_assoc, List.drop_left,
          List.singleton_append, changesFollow, Bool.and_true, Bool.and_eq_true] <;>
        first
        | exact ⟨step1 _ rfl _ _ rfl, step2 _ _ rfl _ _ _ rfl rfl⟩
        | exact ⟨step1 _ rfl _ _ rfl, stepSame _ _, step2 _ _ rfl _ _ _ rfl rfl⟩
        | exact ⟨stepSame _ _, step0 _ _ rfl _ _ rfl⟩
    · intro hce
      simp only at hce
      subst hce
      cases ue <;> cases re <;>
        simp only [webhookNewClip, h1, h2, h3, tryBlock, updateClipStatus, storageUpload,
          ne_eq, not_true_eq_false, or_self, ite_false, List.append_assoc, List.drop_left,
          List.singleton_append, changesFollow, Bool.and_true, Bool.and_eq_true] <;>
        first
        | exact ⟨step1 _ rfl _ _ rfl, step2 _ _ rfl _ _ _ rfl rfl⟩
        | exact ⟨step1 _ rfl _ _ rfl, stepSame _ _, step2 _ _ rfl _ _ _ rfl rfl⟩
    · cases ce <;> cases ue <;> cases re <;>
        simp only [webhookNewClip, h1, h2, h3, tryBlock, updateClipStatus, storageUpload,
          ne_eq, not_true_eq_false, or_self, ite_false, List.append_assoc, List.drop_left,
          List.singleton_append, othersKeptAlong, Bool.and_true, Bool.and_eq_true] <;>
        first
        | exact ⟨othersKept_dbUpdate _ _ _ _, othersKept_dbUpdate _ _ _ _⟩
        | exact ⟨othersKept_dbUpdate _ _ _ _, othersKept_dbUpdate _ _ _ _,
            othersKept_dbUpdate _ _ _ _⟩
  · have hst : (webhookNewClip cfg getPublicUrl o req s).state = s := by
      apply state_of_rejected
      by_contra hcon
      push_neg at hcon
      exact hacc hcon
    rw [hst]
    simp [changesFollow, othersKeptAlong]

/-- Witness of C2 as amended: the notification of `clip001.mp4` handled with a failing
upload, in a registry that also holds a READY row of another clip. -/
theorem transitions_from_pending_witness :
    (∀ r ∈ (stateOf [exampleRecord, exampleOther]).registry, r.id = exampleRequest.record.id →
      r.status = Status.PENDING) ∧
    changesFollow allowedOrPendingFailed (stateOf [exampleRecord, exampleOther]).registry
      ((webhookNewClip (config (some "s3cret")) examplePublicUrl (outcomeWith false true false false)
        exampleRequest (stateOf [exampleRecord, exampleOther])).state.steps.drop
        (stateOf [exampleRecord, exampleOther]).steps.length) = true ∧
    othersKeptAlong exampleRequest.record.id (stateOf [exampleRecord, exampleOther]).registry
      ((webhookNewClip (config (some "s3cret")) examplePublicUrl (outcomeWith false true false false)
        exampleRequest (stateOf [exampleRecord, exampleOther])).state.steps.drop
        (stateOf [exampleRecord, exampleOther]).steps.length) = true :=
  ⟨by decide,
   (transitions_from_pending (config (some "s3cret")) examplePublicUrl
    (outcomeWith false true false false) exampleRequest (stateOf [exampleRecord, exampleOther])
    (by decide)).1,
   (transitions_from_pending (config (some "s3cret")) examplePublicUrl
    (outcomeWith false true false false) exampleRequest (stateOf [exampleRecord, exampleOther])
    (by decide)).2.2⟩

/-- Counterexample to C2 as stated: the claim update for a PENDING record returns an error
and the FAILED update succeeds; the record goes from PENDING directly to FAILED, which is
not a transition of the state machine. -/
theorem pending_to_failed_when_claim_errors :
    statusTrace (webhookNewClip (config (some "s3cret")) examplePublicUrl
      (outcomeWith true false false false) exampleRequest (stateOf [exampleRecord])).state.steps =
      [[Status.PENDING], [Status.FAILED]] ∧
    changesFollow allowedTransition [exampleRecord]
      (webhookNewClip (config (some "s3cret")) examplePublicUrl
        (outcomeWith true false false false) exampleRequest (stateOf [exampleRecord])).state.steps =
      false := by
  decide

/-! ### The ingestion gateway -/

theorem foldl_writableWrite (chunks : List String) (s : Proc) :
    chunks.foldl (fun acc chunk => writableWrite chunk acc) s = s := by
  induction chunks with
  | nil => rfl
  | cons c rest ih => simp [writableWrite]

theorem simulatedRawClipUrl_ne_empty (cfg : IngestorConfig) (path : String) :
    simulatedRawClipUrl cfg path ≠ "" := by
  intro h
  have hl := congrArg String.length h
  simp only [simulatedRawClipUrl, String.length_append] at hl
  have h1 : "/".length = 1 := by decide
  have h0 : "".length = 0 := by decide
  omega

/-- C9, evaluated on the code: three bytes are uploaded to `/uploads/clip001.mp4` and the
insert succeeds; a ClipRecord is registered although no storage call was made and no
bucket holds the bytes under `arena01/clip001.mp4`. -/
theorem record_without_stored_artifact :
    (onPut exampleIngestor (insertWith InsertResult.inserted) exampleTransfer (stateOf [])).state.registry =
      [exampleRecord] ∧
    (onPut exampleIngestor (insertWith InsertResult.inserted) exampleTransfer (stateOf [])).state.objects =
      [] ∧
    (onPut exampleIngestor (insertWith InsertResult.inserted) exampleTransfer (stateOf [])).state.uploads =
      [] ∧
    rawArtifactStored exampleIngestor exampleTransfer
      (onPut exampleIngestor (insertWith InsertResult.inserted) exampleTransfer (stateOf [])).state =
      false := by
  decide

/-- What the `PUT` handler does on every transfer as the code stands: it makes no storage
call and leaves the buckets as they were; a row is inserted exactly when the stream was
ended and the insert succeeded, and its `raw_clip_url` is the string built at ingesor.js:68
from the key `uploader/filename`. -/
theorem gateway_makes_no_store_write (cfg : IngestorConfig) (o : InsertOutcome) (t : Transfer)
    (s : Proc) :
    (onPut cfg o t s).state.objects = s.objects ∧
    (onPut cfg o t s).state.uploads = s.uploads ∧
    (onPut cfg o t s).state.registry =
      (if t.ended = true ∧ o.result = InsertResult.inserted then
        s.registry ++
          [insertedRow cfg o (basename t.filepath) (cfg.sftpUsername ++ "/" ++ basename t.filepath)]
      else s.registry) ∧
    (insertedRow cfg o (basename t.filepath)
        (cfg.sftpUsername ++ "/" ++ basename t.filepath)).raw_clip_url =
      cfg.supabaseUrl ++ "/storage/v1/object/public/" ++ cfg.rawClipsBucket ++ "/" ++
        (cfg.sftpUsername ++ "/" ++ basename t.filepath) := by
  obtain ⟨res, newId, now⟩ := o
  cases hended : t.ended <;> cases res <;>
    simp [onPut, finishHandler, foldl_writableWrite, hended, insertedRow, simulatedRawClipUrl]

/-- Counterexample to C10 as stated: the client completes the upload of
`/uploads/clip001.mp4` and sees it succeed, the insert returns an error, and no ClipRecord
is created. -/
theorem successful_upload_without_record :
    (onPut exampleIngestor (insertWith InsertResult.error) exampleTransfer (stateOf [])).clientOk =
      true ∧
    (onPut exampleIngestor (insertWith InsertResult.error) exampleTransfer (stateOf [])).state.registry =
      [] := by
  decide

/-- C10 as amended: for every upload to path `p` that the transfer client sees as
successful, a zero-byte one included, and whose insert into the registry succeeds, exactly
one ClipRecord is added, with filename `basename p`, the configured uploader, status
PENDING, no `processed_clip_url`, and a non-empty `raw_clip_url` that is the public URL of
the key `uploader/basename p` in the raw-clips bucket. -/
theorem ingestion_result (cfg : IngestorConfig) (o : InsertOutcome) (t : Transfer) (s : Proc)
    (hclient : (onPut cfg o t s).clientOk = true) (hinsert : o.result = InsertResult.inserted) :
    (onPut cfg o t s).state.registry = s.registry ++
      [{ id := o.newId
         filename := basename t.filepath
         uploader_id := cfg.sftpUsername
         raw_clip_url := cfg.supabaseUrl ++ "/storage/v1/object/public/" ++ cfg.rawClipsBucket ++
           "/" ++ (cfg.sftpUsername ++ "/" ++ basename t.filepath)
         processed_clip_url := none
         status := Status.PENDING
         created_at := o.now
         updated_at := none }] ∧
    cfg.supabaseUrl ++ "/storage/v1/object/public/" ++ cfg.rawClipsBucket ++
      "/" ++ (cfg.sftpUsername ++ "/" ++ basename t.filepath) ≠ "" := by
  have hended : t.ended = true := by
    cases he : t.ended
    · simp [onPut, he] at hclient
    · rfl
  refine ⟨?_, simulatedRawClipUrl_ne_empty cfg _⟩
  simp [onPut, finishHandler, foldl_writableWrite, hended, hinsert, insertedRow,
    simulatedRawClipUrl]

/-- Witness of C10 as amended: a zero-byte upload of `clip001.mp4` by `arena01` registers
one PENDING row whose `raw_clip_url` ends in `arena01/clip001.mp4`. -/
theorem ingestion_result_witness :
    (onPut exampleIngestor (insertWith InsertResult.inserted)
      { filepath := "clip001.mp4", chunks := [], ended := true } (stateOf [])).state.registry =
      [] ++
      [{ id := "c1"
         filename := basename "clip001.mp4"
         uploader_id := "arena01"
         raw_clip_url := "https://db.example" ++ "/storage/v1/object/public/" ++ "raw-clips" ++
           "/" ++ ("arena01" ++ "/" ++ basename "clip001.mp4")
         processed_clip_url := none
         status := Status.PENDING
         created_at := "t0"
         updated_at := none }] ∧
    basename "clip001.mp4" = "clip001.mp4" ∧
    "https://db.example" ++ "/storage/v1/object/public/" ++ "raw-clips" ++
      "/" ++ ("arena01" ++ "/" ++ basename "clip001.mp4") =
      "https://db.example/storage/v1/object/public/raw-clips/arena01/clip001.mp4" :=
  ⟨(ingestion_result exampleIngestor (insertWith InsertResult.inserted)
      { filepath := "clip001.mp4", chunks := [], ended := true } (stateOf [])
      (by decide) (by decide)).1, by decide, by decide⟩

end SaasReplay
